import Mathlib

/-!
Verification development for the samsam matcher-construction engine
(`lib/create-matcher.js`-style source).  JavaScript values are modelled as a
finite value tree `JSVal`; matcher expectations as `Exp`; a matcher's `test`
is a function `JSVal → Except Unit Bool`, where `Except.error ()` models a
thrown `TypeError`.  Numbers are modelled as integers (no floats / NaN); JS
object identity is approximated by structural equality on this heap-free
value model.
-/

set_option linter.unusedVariables false

/-- Model of a JavaScript value.  Plain objects carry their own enumerable
properties plus a flattened list of inherited (prototype-chain) properties;
`Object.create(p)` with prototype properties `p` is `obj [] p`. -/
inductive JSVal where
  | undefined : JSVal
  | null : JSVal
  | bool (b : Bool) : JSVal
  | num (n : Int) : JSVal
  | str (s : String) : JSVal
  | arr (elems : List JSVal) : JSVal
  | obj (own : List (String × JSVal)) (proto : List (String × JSVal)) : JSVal
  | map (entries : List (JSVal × JSVal)) : JSVal
  | set (elems : List JSVal) : JSVal

mutual

/-- Structural equality on the JS value model (decidable equality written
out by hand, since the type nests `JSVal` inside lists and pairs). -/
def jsEq : JSVal → JSVal → Bool
  | .undefined, .undefined => true
  | .null, .null => true
  | .bool a, .bool b => a == b
  | .num a, .num b => a == b
  | .str a, .str b => a == b
  | .arr xs, .arr ys => jsEqList xs ys
  | .obj o1 p1, .obj o2 p2 => jsEqFields o1 o2 && jsEqFields p1 p2
  | .map e1, .map e2 => jsEqEntries e1 e2
  | .set xs, .set ys => jsEqList xs ys
  | _, _ => false

/-- Elementwise `jsEq` on lists of values. -/
def jsEqList : List JSVal → List JSVal → Bool
  | [], [] => true
  | x :: xs, y :: ys => jsEq x y && jsEqList xs ys
  | _, _ => false

/-- Elementwise `jsEq` on property lists. -/
def jsEqFields : List (String × JSVal) → List (String × JSVal) → Bool
  | [], [] => true
  | (k1, v1) :: r1, (k2, v2) :: r2 => k1 == k2 && jsEq v1 v2 && jsEqFields r1 r2
  | _, _ => false

/-- Elementwise `jsEq` on map entry lists. -/
def jsEqEntries : List (JSVal × JSVal) → List (JSVal × JSVal) → Bool
  | [], [] => true
  | (a1, b1) :: r1, (a2, b2) :: r2 => jsEq a1 a2 && jsEq b1 b2 && jsEqEntries r1 r2
  | _, _ => false

end

/-- Model of `@sinonjs/commons` `typeOf` (external collaborator, the spec's
`classify`): `null`/`undefined` are their own tags, otherwise the lowercased
`Object.prototype.toString` class.  Function values do not occur in this
value model, so the tag `"function"` is never produced. -/
def jsTypeOf : JSVal → String
  | .undefined => "undefined"
  | .null => "null"
  | .bool _ => "boolean"
  | .num _ => "number"
  | .str _ => "string"
  | .arr _ => "array"
  | .obj _ _ => "object"
  | .map _ => "map"
  | .set _ => "set"

/-- Model of the JavaScript `typeof` operator (used by `has`): `null`,
arrays, maps, sets and plain objects all report `"object"`. -/
def jsTypeofOp : JSVal → String
  | .undefined => "undefined"
  | .null => "object"
  | .bool _ => "boolean"
  | .num _ => "number"
  | .str _ => "string"
  | .arr _ => "object"
  | .obj _ _ => "object"
  | .map _ => "object"
  | .set _ => "object"

/-- First binding of `key` in an association list of properties. -/
def lookupField : List (String × JSVal) → String → Option JSVal
  | [], _ => none
  | (k, v) :: rest, key => if k = key then some v else lookupField rest key

/-- Model of JavaScript property access `v[key]` on a non-null base:
own properties shadow inherited ones; arrays expose `length` and numeric
indices; strings expose `length`; maps and sets expose `size`; any other
access yields `undefined`. -/
def jsGet (v : JSVal) (key : String) : JSVal :=
  match v with
  | .obj own proto =>
    match lookupField own key with
    | some x => x
    | none => (lookupField proto key).getD .undefined
  | .arr xs =>
    if key = "length" then .num xs.length
    else
      match key.toNat? with
      | some i => (xs.get? i).getD .undefined
      | none => .undefined
  | .str s => if key = "length" then .num s.length else .undefined
  | .map es => if key = "size" then .num es.length else .undefined
  | .set xs => if key = "size" then .num xs.length else .undefined
  | _ => .undefined

/-- Model of array indexing `xs[i]` with a possibly negative index:
out-of-range access yields `undefined`. -/
def jsIndexInt (xs : List JSVal) (i : Int) : JSVal :=
  if i < 0 then .undefined
  else (xs.get? i.toNat).getD .undefined

/-- `Object.keys`: the own enumerable property names of a plain object. -/
def jsOwnKeys : JSVal → List String
  | .obj own _ => own.map Prod.fst
  | _ => []

/-- Model of the JavaScript `in` operator on a plain object or array:
membership anywhere on the (flattened) prototype chain.  Map/set prototype
methods are not modelled. -/
def jsHasIn (v : JSVal) (key : String) : Bool :=
  match v with
  | .obj own proto => (lookupField own key).isSome || (lookupField proto key).isSome
  | .arr xs =>
    key = "length" ||
      (match key.toNat? with
       | some i => i < xs.length
       | none => false)
  | _ => false

/-- Model of JavaScript strict equality `===`.  On this heap-free value
model object identity is approximated by structural equality; primitives
compare exactly (integers only, so NaN and negative zero do not arise). -/
def jsStrictEq (a b : JSVal) : Bool :=
  jsEq a b

/-- Modelled from the spec: the `deep-equal` collaborator
(`require("./deep-equal")`, repository code absent from `src/`): "cycle-safe,
type-aware recursive equality", opaque in the spec.  On this finite value
model it is structural equality. -/
def deepEqualV (a b : JSVal) : Bool :=
  jsEq a b

/-- JS truthiness: `Boolean(v)`. -/
def jsTruthy : JSVal → Bool
  | .undefined => false
  | .null => false
  | .bool b => b
  | .num n => decide (n ≠ 0)
  | .str s => decide (s ≠ "")
  | _ => true

/-- Model of `ToNumber` on a string: the empty string is `0`, an optionally
signed decimal literal parses as an integer, anything else is NaN (`none`).
Whitespace trimming, floats and exotic literals are outside this model. -/
def jsStringToNumber (s : String) : Option Int :=
  if s = "" then some 0 else s.toInt?

/-- Model of JavaScript loose equality `==` with a number on the left.
`null`/`undefined` never equal a number; booleans and strings coerce via
`ToNumber`; composite values coerce through `ToPrimitive`, modelled here as
NaN (hence `false`) except for the empty array (which coerces to `0`) and a
one-element array (which coerces through its element's string form). -/
def looseEqNum (n : Int) : JSVal → Bool
  | .num m => decide (n = m)
  | .str s =>
    match jsStringToNumber s with
    | some m => decide (n = m)
    | none => false
  | .bool b => decide (n = (if b then 1 else 0))
  | .arr [] => decide (n = 0)
  | .arr [.num m] => decide (n = m)
  | .arr [.str s] =>
    match jsStringToNumber s with
    | some m => decide (n = m)
    | none => false
  | .arr [.null] => decide (n = 0)
  | _ => false

/-- Model of `@sinonjs/commons` `valueToString` (external collaborator, the
spec's `stringify`): a display string for a value; its exact format carries
no semantic weight in any claim. -/
def valueToString : JSVal → String
  | .undefined => "undefined"
  | .null => "null"
  | .bool b => if b then "true" else "false"
  | .num n => toString n
  | .str s => s
  | .arr _ => "[array]"
  | .obj _ _ => "[object Object]"
  | .map _ => "[object Map]"
  | .set _ => "[object Set]"

/-- Modelled from the spec: the `iterable-to-string` collaborator
(`require("./iterable-to-string")`, repository code absent from `src/`): the
spec contracts it as `formatIterable(value) -> string`, a total stringifier;
its output format carries no semantic weight in any claim. -/
def formatIterable (v : JSVal) : String :=
  valueToString v

/-- `forEach` callback pairs `(value, index-or-key)` for the values that
carry a callable `forEach` in this model: arrays (value, index), maps
(value, key), sets (value, value).  `none` for every other value: calling
the missing `forEach` throws, which `@sinonjs/commons` `every` catches. -/
def forEachPairs : JSVal → Option (List (JSVal × JSVal))
  | .arr xs => some ((xs.enum).map (fun p => (p.2, .num p.1)))
  | .map es => some (es.map (fun p => (p.2, p.1)))
  | .set xs => some (xs.map (fun x => (x, x)))
  | _ => none

/-- Returns `true` for iterables: `Boolean(value) && typeOf(value.forEach)
=== "function"`.  In this value model exactly arrays, maps and sets carry a
callable `forEach` (a plain object with an own `forEach` property would be
classified `"object"` and handled before `isIterable` is consulted). -/
def isIterable (value : JSVal) : Bool :=
  (forEachPairs value).isSome

/-- Model of `@sinonjs/commons` `every` over a JS value with a pure boolean
callback: iterates with `forEach` inside try/catch, so a value without a
callable `forEach` yields `false` rather than propagating the TypeError. -/
def commonsEvery (v : JSVal) (f : JSVal → JSVal → Bool) : Bool :=
  match forEachPairs v with
  | some ps => ps.all (fun p => f p.1 p.2)
  | none => false

/-- Model of `@sinonjs/commons` `every` with a callback that may itself
throw (`Except.error`): the surrounding try/catch turns a throwing callback
into an overall `false`. -/
def commonsEveryE (v : JSVal) (f : JSVal → JSVal → Except Unit Bool) : Bool :=
  match forEachPairs v with
  | some ps =>
    ps.all (fun p =>
      match f p.1 p.2 with
      | .ok true => true
      | _ => false)
  | none => false

/-- A Matcher object: the predicate plus the display message.  `test`
returning `Except.error ()` models a thrown TypeError; all builders install
boolean-returning predicates per the Matcher contract. -/
structure Matcher where
  test : JSVal → Except Unit Bool
  message : String

/-- An expectation value handed to the factory or nested inside an object
expectation: a plain JS value, a predicate function (with its name, for
messages), a regular expression (modelled by its string predicate and
source form), an object literal that may carry matchers or functions in its
fields, or an already-constructed Matcher. -/
inductive Exp where
  | val (v : JSVal)
  | func (f : JSVal → Except Unit Bool) (name : String)
  | rx (pat : String → Bool) (source : String)
  | obj (fields : List (String × Exp))
  | matcherE (m : Matcher)

/-- First binding of `key` in an expectation-object field list. -/
def lookupFieldE : List (String × Exp) → String → Option Exp
  | [], _ => none
  | (k, v) :: rest, key => if k = key then some v else lookupFieldE rest key

/-- Display form of an expectation field value, via the `valueToString`
collaborator (a Matcher stringifies through its `toString`, which returns
its message). -/
def valueToStringE : Exp → String
  | .val v => valueToString v
  | .func _ name => "function " ++ name
  | .rx _ source => source
  | .obj _ => "[object Object]"
  | .matcherE m => m.message

mutual

/-- `matchObject(actual, expectation)` on a raw (matcher-free) object
expectation, the recursive case of the structural matcher: `false` on a
null/undefined actual, otherwise every own key of the expectation must
match — nested plain objects recurse, everything else goes to `deepEqual`. -/
def matchObjectV (actual : JSVal) (fields : List (String × JSVal)) : Bool :=
  match actual with
  | .null => false
  | .undefined => false
  | _ => matchFieldsV actual fields
termination_by (sizeOf fields, 1)

/-- Conjunction over the own keys of a raw object expectation
(`arrayEvery(Object.keys(expectation), ...)`). -/
def matchFieldsV (actual : JSVal) (l : List (String × JSVal)) : Bool :=
  match l with
  | [] => true
  | (key, exp) :: rest =>
    (match exp with
     | .obj own _ => matchObjectV (jsGet actual key) own
     | v => deepEqualV (jsGet actual key) v) && matchFieldsV actual rest
termination_by (sizeOf l, 0)

end

mutual

/-- `matchObject(actual, expectation)` (lines 116-139): `false` on a
null/undefined actual; otherwise a conjunction over the own keys of the
expectation.  A matcher field may throw, hence the `Except` result. -/
def matchObject (actual : JSVal) (expectation : List (String × Exp)) : Except Unit Bool :=
  match actual with
  | .null => .ok false
  | .undefined => .ok false
  | _ => matchFields actual expectation
termination_by (sizeOf expectation, 2)

/-- `arrayEvery(Object.keys(expectation), ...)`: native `Array.prototype.every`,
which propagates an exception from the callback and short-circuits on the
first failing key. -/
def matchFields (actual : JSVal) (l : List (String × Exp)) : Except Unit Bool :=
  match l with
  | [] => .ok true
  | (key, exp) :: rest => do
    let passed ← expFieldTest actual key exp
    if passed then matchFields actual rest else pure false
termination_by (sizeOf l, 1)

/-- One key of the structural match, in source order: a Matcher field is
tested (`isMatcher(exp)` first), a plain-object field recurses
(`typeOf(exp) === "object"`), anything else goes to `deepEqual`.  A function
or regexp field falls to `deepEqual` against a closure/regexp reference,
which never equals a value of this model. -/
def expFieldTest (actual : JSVal) (key : String) (exp : Exp) : Except Unit Bool :=
  match exp with
  | .matcherE m => m.test (jsGet actual key)
  | .obj fields => matchObject (jsGet actual key) fields
  | .func _ _ => pure false
  | .rx _ _ => pure false
  | .val v =>
    match v with
    | .obj own _ => pure (matchObjectV (jsGet actual key) own)
    | w => pure (deepEqualV (jsGet actual key) w)
termination_by (sizeOf exp, 0)

end

/-- The needle is a prefix of the haystack (character lists). -/
def charsStartWith : List Char → List Char → Bool
  | _, [] => true
  | [], _ :: _ => false
  | a :: as, b :: bs => a == b && charsStartWith as bs

/-- Some suffix of the haystack starts with the needle. -/
def charsContain (haystack needle : List Char) : Bool :=
  charsStartWith haystack needle ||
    (match haystack with
     | [] => false
     | _ :: rest => charsContain rest needle)

/-- Substring containment: `stringIndexOf(actual, expectation) !== -1`. -/
def strContainsSub (actual expectation : String) : Bool :=
  charsContain actual.data expectation.data

/-- The `TYPE_MAP` dispatch of the factory plus its default-message step
(lines 141-188 and 212-222): classifies the expectation and installs `test`
and `message` on a fresh matcher shell.  Only the `function` builder
consumes the caller's message (and only when it is truthy, i.e. non-empty);
every other branch either installs its own message or falls back to the
factory default `match(<stringified expectation>)`. -/
def buildMatcher (expectation : Exp) (message : Option String) : Matcher :=
  match expectation with
  | .func f name =>
    { test := f
      message :=
        match message with
        | some s => if s = "" then "match(" ++ name ++ ")" else s
        | none => "match(" ++ name ++ ")" }
  | .rx pat source =>
    { test := fun actual =>
        .ok (match actual with
             | .str s => pat s
             | _ => false)
      message := "match(" ++ source ++ ")" }
  | .matcherE m =>
    -- typeOf(matcher) is "object" and its `test` member is callable, so the
    -- foreign-predicate adapter applies: test(actual) = expectation.test(actual) === true,
    -- which on the boolean-valued tests of this model is expectation.test itself.
    { test := m.test
      message := "match()" }
  | .obj fields =>
    match lookupFieldE fields "test" with
    | some (.func f name) =>
      { test := f
        message := "match(" ++ name ++ ")" }
    | _ =>
      { test := fun actual => matchObject actual fields
        message :=
          "match(" ++
            String.intercalate ", "
              (fields.map (fun kv => kv.1 ++ ": " ++ valueToStringE kv.2)) ++ ")" }
  | .val v =>
    match v with
    | .num n =>
      { test := fun actual => .ok (looseEqNum n actual)
        message := "match(" ++ valueToString v ++ ")" }
    | .str s =>
      { test := fun actual =>
          .ok (match actual with
               | .str t => strContainsSub t s
               | _ => false)
        message := "match(\"" ++ s ++ "\")" }
    | .obj own _ =>
      -- TYPE_MAP.object on a raw object value: a raw `test` property is never
      -- callable in this value model, so the structural branch applies.
      { test := fun actual => .ok (matchObjectV actual own)
        message :=
          "match(" ++
            String.intercalate ", "
              (own.map (fun kv => kv.1 ++ ": " ++ valueToString kv.2)) ++ ")" }
    | w =>
      { test := fun actual => .ok (deepEqualV actual w)
        message := "match(" ++ valueToString w ++ ")" }

/-- `createMatcher(expectation, message)` (lines 198-225).  `message = none`
models an absent (or explicitly undefined) second argument; `extraArgs`
counts arguments beyond the second, so `arguments.length > 2` is
`extraArgs > 0`.  The message type check precedes the arity check, matching
source order. -/
def createMatcher (expectation : Exp) (message : Option JSVal) (extraArgs : Nat) :
    Except String Matcher :=
  let messageDefined :=
    match message with
    | none => false
    | some .undefined => false
    | some _ => true
  let messageIsString :=
    match message with
    | some (.str _) => true
    | _ => false
  if messageDefined && !messageIsString then
    .error "Message should be a string"
  else if extraArgs > 0 then
    .error ("Expected 1 or 2 arguments, received " ++ toString (2 + extraArgs))
  else
    .ok (buildMatcher expectation
      (match message with
       | some (.str s) => some s
       | _ => none))

/-- Plumbing for theorem statements: the matcher under a constructor that is
known to succeed. -/
def getMatcher (x : Except String Matcher) : Matcher :=
  match x with
  | .ok m => m
  | .error _ => buildMatcher (.val .undefined) none

/-- JS short-circuit disjunction `a || b` over boolean tests that may throw:
the left operand is evaluated first; a thrown error propagates; the right
operand is evaluated only when the left is false. -/
def jsOr (a : Except Unit Bool) (b : Unit → Except Unit Bool) : Except Unit Bool :=
  match a with
  | .error e => .error e
  | .ok true => .ok true
  | .ok false => b ()

/-- JS short-circuit conjunction `a && b` over boolean tests that may throw. -/
def jsAnd (a : Except Unit Bool) (b : Unit → Except Unit Bool) : Except Unit Bool :=
  match a with
  | .error e => .error e
  | .ok false => .ok false
  | .ok true => b ()

/-- Coercion used by the combinators: a Matcher argument is used as-is, any
other value goes through the factory (a one-argument call, which never
raises). -/
def toMatcher : Exp → Matcher
  | .matcherE m => m
  | e => buildMatcher e none

/-- The matcher built by `or` (lines 236-241): short-circuit disjunction of
the two tests, message `<m1>.or(<m2>)`. -/
def orMatcher (m1 m2 : Matcher) : Matcher :=
  { test := fun actual => jsOr (m1.test actual) (fun _ => m2.test actual)
    message := m1.message ++ ".or(" ++ m2.message ++ ")" }

/-- The matcher built by `and` (lines 253-258). -/
def andMatcher (m1 m2 : Matcher) : Matcher :=
  { test := fun actual => jsAnd (m1.test actual) (fun _ => m2.test actual)
    message := m1.message ++ ".and(" ++ m2.message ++ ")" }

/-- `matcher.or(valueOrMatcher)` (lines 227-242): a zero-argument call
(modelled by `none`) raises; otherwise the argument is coerced and the
disjunction matcher returned. -/
def Matcher.or (m1 : Matcher) (valueOrMatcher : Option Exp) : Except String Matcher :=
  match valueOrMatcher with
  | none => .error "Matcher expected"
  | some e => .ok (orMatcher m1 (toMatcher e))

/-- `matcher.and(valueOrMatcher)` (lines 244-259). -/
def Matcher.and (m1 : Matcher) (valueOrMatcher : Option Exp) : Except String Matcher :=
  match valueOrMatcher with
  | none => .error "Matcher expected"
  | some e => .ok (andMatcher m1 (toMatcher e))

/-- `createMatcher.any` (line 263). -/
def createMatcher.any : Matcher :=
  buildMatcher (.func (fun _ => .ok true) "") (Option.some "any")

/-- `createMatcher.defined` (line 267). -/
def createMatcher.defined : Matcher :=
  buildMatcher
    (.func (fun actual =>
      .ok (match actual with
           | .null => false
           | .undefined => false
           | _ => true)) "")
    (Option.some "defined")

/-- `createMatcher.truthy` (line 271). -/
def createMatcher.truthy : Matcher :=
  buildMatcher (.func (fun actual => .ok (jsTruthy actual)) "") (Option.some "truthy")

/-- `createMatcher.falsy` (line 275). -/
def createMatcher.falsy : Matcher :=
  buildMatcher (.func (fun actual => .ok (!jsTruthy actual)) "") (Option.some "falsy")

/-- `createMatcher.same(expectation)` (lines 279-283): strict identity. -/
def createMatcher.same (expectation : JSVal) : Matcher :=
  buildMatcher (.func (fun actual => .ok (jsStrictEq expectation actual)) "")
    (Option.some ("same(" ++ valueToString expectation ++ ")"))

/-- `createMatcher.in(arrayOfExpectations)` (lines 285-295): raises unless
the argument classifies as an array; strict membership otherwise. -/
def inMatcher (arrayOfExpectations : JSVal) : Except String Matcher :=
  match arrayOfExpectations with
  | .arr xs =>
    .ok (buildMatcher
      (.func (fun actual =>
        .ok (xs.any (fun expectation => jsStrictEq expectation actual))) "")
      (Option.some ("in(" ++ valueToString arrayOfExpectations ++ ")")))
  | v => .error "array expected"

/-- `createMatcher.typeOf(type)` (lines 297-302): `assertType(type, "string")`,
then classification equality. -/
def createMatcher.typeOf (type : JSVal) : Except String Matcher :=
  match type with
  | .str t =>
    .ok (buildMatcher
      (.func (fun actual => .ok (decide (jsTypeOf actual = t))) "")
      (Option.some ("typeOf(\"" ++ t ++ "\")")))
  | v => .error ("Expected type of type to be string, but was " ++ jsTypeOf v)

/-- Argument to `instanceOf`: either a callable (JS functions lie outside
the `JSVal` value space of this model) or a plain value. -/
inductive InstanceOfArg where
  | callable (name : String)
  | value (v : JSVal)

/-- Uninterpreted model of `actual instanceof type`: this heap-free model
contains no constructed class instances, and no claim depends on its
outcome. -/
def jsInstanceOf (actual : JSVal) (typeName : String) : Bool :=
  false

/-- `createMatcher.instanceOf(type)` (lines 304-321): with `Symbol.hasInstance`
available, `assertMethodExists(type, Symbol.hasInstance, ...)` — in this
model only callables carry it, so any plain value raises (a null/undefined
argument raises from the property read itself). -/
def createMatcher.instanceOf (type : InstanceOfArg) : Except String Matcher :=
  match type with
  | .callable name =>
    .ok (buildMatcher
      (.func (fun actual => .ok (jsInstanceOf actual name)) "")
      (Option.some ("instanceOf(" ++ name ++ ")")))
  | .value _ => .error "Expected type to have method [Symbol.hasInstance]"

/-- `has`'s propertyTest (lines 353-358): `property in actual` when the
`typeof` operator reports an object, otherwise a defined-property read. -/
def hasPropertyTest (actual : JSVal) (property : String) : Bool :=
  if jsTypeofOp actual = "object" then jsHasIn actual property
  else !(jsEq (jsGet actual property) .undefined)

/-- `hasOwn`'s propertyTest (lines 360-362): `hasOwnProperty(actual, property)`,
no prototype-chain lookup. -/
def hasOwnPropertyTest (actual : JSVal) (property : String) : Bool :=
  match actual with
  | .obj own _ => (lookupField own property).isSome
  | .arr xs =>
    property = "length" ||
      (match property.toNat? with
       | some i => i < xs.length
       | none => false)
  | .str s => property = "length"
  | _ => false

/-- `createPropertyMatcher(propertyTest, messagePrefix)` (lines 331-351):
the returned builder validates the property name, then closes over the
existence-only flag (`value = none` models the one-argument call). -/
def createPropertyMatcher (propertyTest : JSVal → String → Bool) (messageStem : String)
    (property : JSVal) (value : Option JSVal) : Except String Matcher :=
  match property with
  | .str p =>
    let onlyProperty := value.isNone
    let message :=
      messageStem ++ "(\"" ++ p ++ "\"" ++
        (match value with
         | some w => ", " ++ valueToString w
         | none => "") ++ ")"
    .ok (buildMatcher
      (.func (fun actual =>
        .ok (match actual with
             | .undefined => false
             | .null => false
             | a =>
               if !propertyTest a p then false
               else onlyProperty || deepEqualV (jsGet a p) (value.getD .undefined))) "")
      (Option.some message))
  | v => .error ("Expected type of property to be string, but was " ++ jsTypeOf v)

/-- `createMatcher.has` (lines 353-358). -/
def createMatcher.has (property : JSVal) (value : Option JSVal) : Except String Matcher :=
  createPropertyMatcher hasPropertyTest "has" property value

/-- `createMatcher.hasOwn` (lines 360-362). -/
def createMatcher.hasOwn (property : JSVal) (value : Option JSVal) : Except String Matcher :=
  createPropertyMatcher hasOwnPropertyTest "hasOwn" property value

/-- Model of lodash `get` (external collaborator, the spec's `resolvePath`)
restricted to dotted paths; a missing intermediate resolves to undefined. -/
def resolvePath (actual : JSVal) (path : String) : JSVal :=
  (path.splitOn ".").foldl jsGet actual

/-- `createMatcher.hasNested(property, value)` (lines 364-382). -/
def createMatcher.hasNested (property : JSVal) (value : Option JSVal) :
    Except String Matcher :=
  match property with
  | .str p =>
    let onlyProperty := value.isNone
    let message :=
      "hasNested(\"" ++ p ++ "\"" ++
        (match value with
         | some w => ", " ++ valueToString w
         | none => "") ++ ")"
    .ok (buildMatcher
      (.func (fun actual =>
        .ok (match actual with
             | .undefined => false
             | .null => false
             | a =>
               if jsEq (resolvePath a p) .undefined then false
               else onlyProperty || deepEqualV (resolvePath a p) (value.getD .undefined))) "")
      (Option.some message))
  | v => .error ("Expected type of property to be string, but was " ++ jsTypeOf v)

/-- test closure of `createMatcher.every(predicate)` (lines 387-400): over a
plain object, `@sinonjs/commons` `every` on the values at the own keys (a
throwing predicate is caught there and counts as a failure); otherwise the
actual must be iterable, and the predicate must hold at every element. -/
def everyTestFun (predicate : Matcher) (actual : JSVal) : Bool :=
  if jsTypeOf actual = "object" then
    (jsOwnKeys actual).all (fun key =>
      match predicate.test (jsGet actual key) with
      | .ok true => true
      | _ => false)
  else
    isIterable actual &&
      commonsEveryE actual (fun element _ => predicate.test element)

/-- test closure of `createMatcher.some(predicate)` (lines 406-419): the
negation of "every element fails"; the callback negates the predicate, so a
throwing predicate is caught by `every` and counts there as failure. -/
def someTestFun (predicate : Matcher) (actual : JSVal) : Bool :=
  if jsTypeOf actual = "object" then
    !((jsOwnKeys actual).all (fun key =>
      match (predicate.test (jsGet actual key)).map (fun b => !b) with
      | .ok true => true
      | _ => false))
  else
    isIterable actual &&
      !commonsEveryE actual (fun element _ => (predicate.test element).map (fun b => !b))

/-- `createMatcher.every(predicate)` (lines 384-401): `assertMatcher`. -/
def createMatcher.every (predicate : Exp) : Except String Matcher :=
  match predicate with
  | .matcherE m =>
    .ok (buildMatcher (.func (fun actual => .ok (everyTestFun m actual)) "")
      (Option.some ("every(" ++ m.message ++ ")")))
  | _ => .error "Matcher expected"

/-- `createMatcher.some(predicate)` (lines 403-420): `assertMatcher`. -/
def createMatcher.some (predicate : Exp) : Except String Matcher :=
  match predicate with
  | .matcherE m =>
    .ok (buildMatcher (.func (fun actual => .ok (someTestFun m actual)) "")
      (Option.some ("some(" ++ m.message ++ ")")))
  | _ => .error "Matcher expected"

/-- `actual[key]` with a JS value as key: numeric keys index arrays, string
keys read properties; other key shapes read nothing in this model. -/
def jsGetV (v : JSVal) (key : JSVal) : JSVal :=
  match key with
  | .num i =>
    (match v with
     | .arr xs => jsIndexInt xs i
     | _ => jsGet v (toString i))
  | .str s => jsGet v s
  | _ => .undefined

/-- `Map.prototype.has` (SameValueZero key comparison; structural here). -/
def mapHas (v : JSVal) (key : JSVal) : Bool :=
  match v with
  | .map es => es.any (fun kv => jsEq kv.1 key)
  | _ => false

/-- `Map.prototype.get`. -/
def mapGet (v : JSVal) (key : JSVal) : JSVal :=
  match v with
  | .map es => ((es.find? (fun kv => jsEq kv.1 key)).map Prod.snd).getD .undefined
  | _ => .undefined

/-- `Set.prototype.has`. -/
def setHas (v : JSVal) (x : JSVal) : Bool :=
  match v with
  | .set ys => ys.any (fun y => jsEq y x)
  | _ => false

mutual

/-- test closure of `createMatcher.array.deepEquals(expectation)` (lines
424-440).  `var sameLength = actual.length === expectation.length` is
evaluated BEFORE the `typeOf(actual) === "array"` guard, so a null or
undefined `actual` (or `expectation`) makes the property read throw. -/
def arrayDeepEqualsTest (expectation : JSVal) (actual : JSVal) : Except Unit Bool :=
  match actual with
  | .null => .error ()
  | .undefined => .error ()
  | .arr xs =>
    match expectation with
    | .null => .error ()
    | .undefined => .error ()
    | _ =>
      let sameLength := jsStrictEq (jsGet (.arr xs) "length") (jsGet expectation "length")
      .ok (sameLength && arrayDeepEqualsElems expectation xs 0)
  | _ =>
    match expectation with
    | .null => .error ()
    | .undefined => .error ()
    | _ => .ok false
termination_by (sizeOf actual, 1)

/-- `every(actual, (element, index) => ...)`: nested arrays recurse through
`array.deepEquals`, every other element pair goes to `deepEqual`.  The
`@sinonjs/commons` `every` wrapper catches a throwing callback (which the
nested-array guard in fact makes unreachable). -/
def arrayDeepEqualsElems (expectation : JSVal) (elems : List JSVal) (index : Nat) : Bool :=
  match elems with
  | [] => true
  | element :: rest =>
    (let expected := jsGet expectation (toString index)
     if jsTypeOf expected = "array" && jsTypeOf element = "array" then
       match arrayDeepEqualsTest expected element with
       | .ok b => b
       | .error _ => false
     else deepEqualV expected element) &&
      arrayDeepEqualsElems expectation rest (index + 1)
termination_by (sizeOf elems, 0)

end

/-- test closure of `createMatcher.array.startsWith(expectation)` (lines
442-451): array guard first, then elementwise strict equality at the same
index (the commons `every` turns a non-iterable expectation into `false`). -/
def startsWithTest (expectation : JSVal) (actual : JSVal) : Except Unit Bool :=
  .ok (decide (jsTypeOf actual = "array") &&
    commonsEvery expectation (fun expectedElement index =>
      jsStrictEq (jsGetV actual index) expectedElement))

/-- test closure of `createMatcher.array.endsWith(expectation)` (lines
453-465): `var offset = actual.length - expectation.length` is evaluated
BEFORE the array guard, so a null/undefined `actual` (or `expectation`)
throws; otherwise strict equality at the shifted index, with out-of-range
reads yielding undefined. -/
def endsWithTest (expectation : JSVal) (actual : JSVal) : Except Unit Bool :=
  match actual with
  | .null => .error ()
  | .undefined => .error ()
  | _ =>
    match expectation with
    | .null => .error ()
    | .undefined => .error ()
    | _ =>
      .ok (match actual, expectation with
           | .arr xs, .arr es =>
             let offset : Int := (xs.length : Int) - (es.length : Int)
             (es.enum).all (fun p =>
               jsStrictEq (jsIndexInt xs (offset + (p.1 : Int))) p.2)
           | .arr _, _ => false
           | _, _ => false)

/-- test closure of `createMatcher.array.contains(expectation)` (lines
467-476): array guard first, then `arrayIndexOf(actual, element) !== -1`
for every element of the expectation. -/
def arrayContainsTest (expectation : JSVal) (actual : JSVal) : Except Unit Bool :=
  .ok (decide (jsTypeOf actual = "array") &&
    commonsEvery expectation (fun expectedElement _ =>
      match actual with
      | .arr xs => xs.any (fun x => jsStrictEq x expectedElement)
      | _ => false))

/-- test closure of `createMatcher.map.deepEquals(expectation)` (lines
480-492): `actual.size === expectation.size` is evaluated BEFORE the map
guard (null/undefined throws); then every entry of `actual` must appear
strictly equal in `expectation`. -/
def mapDeepEqualsTest (expectation : JSVal) (actual : JSVal) : Except Unit Bool :=
  match actual with
  | .null => .error ()
  | .undefined => .error ()
  | _ =>
    match expectation with
    | .null => .error ()
    | .undefined => .error ()
    | _ =>
      let sameLength := jsStrictEq (jsGet actual "size") (jsGet expectation "size")
      .ok (match actual with
           | .map entries =>
             sameLength &&
               entries.all (fun kv =>
                 mapHas expectation kv.1 && jsStrictEq (mapGet expectation kv.1) kv.2)
           | _ => false)

/-- test closure of `createMatcher.map.contains(expectation)` (lines
494-503): map guard first, then every entry of `expectation` must appear
strictly equal in `actual`. -/
def mapContainsTest (expectation : JSVal) (actual : JSVal) : Except Unit Bool :=
  .ok (decide (jsTypeOf actual = "map") &&
    commonsEvery expectation (fun element key =>
      mapHas actual key && jsStrictEq (mapGet actual key) element))

/-- test closure of `createMatcher.set.deepEquals(expectation)` (lines
507-519): `actual.size === expectation.size` is evaluated BEFORE the set
guard (null/undefined throws); then full membership of `actual` in
`expectation`. -/
def setDeepEqualsTest (expectation : JSVal) (actual : JSVal) : Except Unit Bool :=
  match actual with
  | .null => .error ()
  | .undefined => .error ()
  | _ =>
    match expectation with
    | .null => .error ()
    | .undefined => .error ()
    | _ =>
      let sameLength := jsStrictEq (jsGet actual "size") (jsGet expectation "size")
      .ok (match actual with
           | .set xs => sameLength && xs.all (fun x => setHas expectation x)
           | _ => false)

/-- test closure of `createMatcher.set.contains(expectation)` (lines
521-530): set guard first, then membership of every expected element. -/
def setContainsTest (expectation : JSVal) (actual : JSVal) : Except Unit Bool :=
  .ok (decide (jsTypeOf actual = "set") &&
    commonsEvery expectation (fun element _ => setHas actual element))

/-- `createMatcher.array` (line 422): `createMatcher.typeOf("array")`. -/
def createMatcher.array : Matcher :=
  getMatcher (createMatcher.typeOf (.str "array"))

/-- `createMatcher.array.deepEquals(expectation)` (lines 424-440): no
argument validation is performed; construction always succeeds (the
`iterable-to-string` collaborator is total per its spec contract). -/
def createMatcher.array.deepEquals (expectation : JSVal) : Except String Matcher :=
  .ok (buildMatcher (.func (arrayDeepEqualsTest expectation) "")
    (Option.some ("deepEquals([" ++ formatIterable expectation ++ "])")))

/-- `createMatcher.array.startsWith(expectation)` (lines 442-451): no
argument validation. -/
def createMatcher.array.startsWith (expectation : JSVal) : Except String Matcher :=
  .ok (buildMatcher (.func (startsWithTest expectation) "")
    (Option.some ("startsWith([" ++ formatIterable expectation ++ "])")))

/-- `createMatcher.array.endsWith(expectation)` (lines 453-465): no
argument validation. -/
def createMatcher.array.endsWith (expectation : JSVal) : Except String Matcher :=
  .ok (buildMatcher (.func (endsWithTest expectation) "")
    (Option.some ("endsWith([" ++ formatIterable expectation ++ "])")))

/-- `createMatcher.array.contains(expectation)` (lines 467-476): no
argument validation. -/
def createMatcher.array.contains (expectation : JSVal) : Except String Matcher :=
  .ok (buildMatcher (.func (arrayContainsTest expectation) "")
    (Option.some ("contains([" ++ formatIterable expectation ++ "])")))

/-- `createMatcher.map` (line 478). -/
def createMatcher.map : Matcher :=
  getMatcher (createMatcher.typeOf (.str "map"))

/-- `createMatcher.map.deepEquals(expectation)` (lines 480-492): no
argument validation. -/
def createMatcher.map.deepEquals (expectation : JSVal) : Except String Matcher :=
  .ok (buildMatcher (.func (mapDeepEqualsTest expectation) "")
    (Option.some ("deepEquals(Map[" ++ formatIterable expectation ++ "])")))

/-- `createMatcher.map.contains(expectation)` (lines 494-503): no argument
validation. -/
def createMatcher.map.contains (expectation : JSVal) : Except String Matcher :=
  .ok (buildMatcher (.func (mapContainsTest expectation) "")
    (Option.some ("contains(Map[" ++ formatIterable expectation ++ "])")))

/-- `createMatcher.set` (line 505). -/
def createMatcher.set : Matcher :=
  getMatcher (createMatcher.typeOf (.str "set"))

/-- `createMatcher.set.deepEquals(expectation)` (lines 507-519): no
argument validation. -/
def createMatcher.set.deepEquals (expectation : JSVal) : Except String Matcher :=
  .ok (buildMatcher (.func (setDeepEqualsTest expectation) "")
    (Option.some ("deepEquals(Set[" ++ formatIterable expectation ++ "])")))

/-- `createMatcher.set.contains(expectation)` (lines 521-530): no argument
validation. -/
def createMatcher.set.contains (expectation : JSVal) : Except String Matcher :=
  .ok (buildMatcher (.func (setContainsTest expectation) "")
    (Option.some ("contains(Set[" ++ formatIterable expectation ++ "])")))

/-- A value as examined by `isMatcher`: either an object created through
`Object.create(matcher)` — which is how the factory (line 199) and the
combinators (lines 236, 253) build every matcher, so its prototype chain
contains the `matcher` prototype — or any other, externally authored, value
whose chain does not. -/
inductive JSEntity where
  | matcherObj (m : Matcher)
  | foreign (v : JSVal)

/-- `isMatcher(object)` (lines 39-41): `isPrototypeOf(matcher, object)` —
membership of the `matcher` prototype in the prototype chain.  The fields
of the examined object (`test`, `message`) are never consulted. -/
def isMatcher : JSEntity → Bool
  | .matcherObj _ => true
  | .foreign _ => false

/-- An Except result is a success. -/
def exceptOk {ε α : Type} : Except ε α → Bool
  | .ok _ => true
  | .error _ => false

/-- The second factory argument is acceptable: absent, undefined, or a
string. -/
def msgArgOk : Option JSVal → Bool
  | none => true
  | some .undefined => true
  | some (.str _) => true
  | some _ => false

/-- The instanceOf argument is callable. -/
def isCallableArg : InstanceOfArg → Bool
  | .callable _ => true
  | .value _ => false

/-- The expectation is an engine-made Matcher (what `assertMatcher`
accepts). -/
def isMatcherExp : Exp → Bool
  | .matcherE _ => true
  | _ => false

/-- The per-key condition of the spec's structural-match description: a
Matcher field must pass its test, a plain-object field must recursively
match (whether written as an expectation object or as a raw value), and any
other field must be deepEqual to the actual's value — a closure or regexp
reference is deepEqual to no value of this model. -/
def specFieldMatches (actual : JSVal) (key : String) : Exp → Prop
  | .matcherE m => m.test (jsGet actual key) = .ok true
  | .obj fields => matchObject (jsGet actual key) fields = .ok true
  | .val (.obj own _) => matchObjectV (jsGet actual key) own = true
  | .val w => deepEqualV (jsGet actual key) w = true
  | .func _ _ => False
  | .rx _ _ => False

deriving instance DecidableEq for Except

/-- A boolean match on a test outcome agrees with decidable equality
against `.ok true`. -/
theorem matchOkTrue_eq_decide (x : Except Unit Bool) :
    (match x with
     | .ok true => true
     | _ => false) = decide (x = .ok true) := by
  cases x with
  | ok b => cases b <;> simp
  | error e => simp

/-- `List.all` of a boolean predicate, as a decided bounded quantifier. -/
theorem all_eq_decide {α : Type} (l : List α) (f : α → Bool) :
    l.all f = decide (∀ x ∈ l, f x = true) := by
  rw [Bool.eq_iff_iff]
  simp [List.all_eq_true]

/-- Negating a test outcome succeeds with true exactly when the outcome was
a plain false. -/
theorem mapNot_ok_true (x : Except Unit Bool) :
    ((x.map (fun b => !b)) = .ok true) ↔ x = .ok false := by
  cases x with
  | ok b => cases b <;> simp [Except.map]
  | error e => simp [Except.map]

/-- C10: for the empty plain-object expectation, `createMatcher({}).test(actual)`
returns true for every actual that is neither null nor undefined (the
conjunction over zero expectation keys is vacuously true, so any object,
primitive or array matches), and returns false exactly when actual is null
or undefined. -/
theorem createMatcher_empty_object_spec (actual : JSVal) :
    (getMatcher (createMatcher (.obj []) none 0)).test actual =
      .ok (match actual with
           | .null => false
           | .undefined => false
           | _ => true) := by
  cases actual <;>
    simp [createMatcher, getMatcher, buildMatcher, lookupFieldE, matchObject, matchFields]

/-- C4: for all matchers `m1`, `m2` and every value `x`,
`m1.or(m2).test(x)` is the left-first short-circuit disjunction of the two
tests and `m1.and(m2).test(x)` the conjunction; the composed messages are
`<m1>.or(<m2>)` and `<m1>.and(<m2>)`; and chained or/and are associative in
test outcome. -/
theorem or_and_combinator_laws (m1 m2 m3 : Matcher) (x : JSVal) :
    (orMatcher m1 m2).test x = jsOr (m1.test x) (fun _ => m2.test x) ∧
    (andMatcher m1 m2).test x = jsAnd (m1.test x) (fun _ => m2.test x) ∧
    (orMatcher m1 m2).message = m1.message ++ ".or(" ++ m2.message ++ ")" ∧
    (andMatcher m1 m2).message = m1.message ++ ".and(" ++ m2.message ++ ")" ∧
    Matcher.or m1 (some (.matcherE m2)) = .ok (orMatcher m1 m2) ∧
    Matcher.and m1 (some (.matcherE m2)) = .ok (andMatcher m1 m2) ∧
    (orMatcher (orMatcher m1 m2) m3).test x = (orMatcher m1 (orMatcher m2 m3)).test x ∧
    (andMatcher (andMatcher m1 m2) m3).test x = (andMatcher m1 (andMatcher m2 m3)).test x := by
  refine ⟨rfl, rfl, rfl, rfl, rfl, rfl, ?_, ?_⟩
  · simp only [orMatcher]
    cases h1 : m1.test x with
    | error e => simp [jsOr, h1]
    | ok b1 =>
      cases b1 with
      | true => simp [jsOr, h1]
      | false => simp [jsOr, h1]
  · simp only [andMatcher]
    cases h1 : m1.test x with
    | error e => simp [jsAnd, h1]
    | ok b1 =>
      cases b1 with
      | false => simp [jsAnd, h1]
      | true => simp [jsAnd, h1]

/-- C8: for a number expectation `n`, `createMatcher(n).test(actual)` is the
coercive (loose-equality) comparison `n == actual` for every actual — and
that comparison differs from strict equality, e.g. at `actual = true`
(`1 == true` but not `1 === true`). -/
theorem number_expectation_loose_equality (n : Int) (actual : JSVal) :
    (getMatcher (createMatcher (.val (.num n)) none 0)).test actual =
      .ok (looseEqNum n actual) ∧
    (getMatcher (createMatcher (.val (.num 1)) none 0)).test (.bool true) = .ok true ∧
    jsStrictEq (.num 1) (.bool true) = false := by
  refine ⟨rfl, by decide, by simp [jsStrictEq, jsEq]⟩

/-- C2 counterexample: `createMatcher.has("x").test({x: undefined})` does
not return false — the `in` operator reports own properties even when their
value is undefined, so the existence test passes. -/
theorem has_undefined_property_counterexample :
    ¬((getMatcher (createMatcher.has (.str "x") none)).test
        (.obj [("x", .undefined)] []) = .ok false) := by
  intro h
  simp [getMatcher, createMatcher.has, createPropertyMatcher, buildMatcher,
    hasPropertyTest, jsTypeofOp, jsHasIn, lookupField] at h

/-- C2 amended: in existence-only mode `createMatcher.has("x").test({x: undefined})`
returns TRUE (own properties count regardless of value);
`createMatcher.hasOwn("x").test(Object.create({x:1}))` returns false (no
prototype-chain lookup); and `createMatcher.has("x").test(Object.create({x:1}))`
returns true (prototype-chain lookup). -/
theorem has_hasOwn_existence_spec :
    (getMatcher (createMatcher.has (.str "x") none)).test (.obj [("x", .undefined)] []) =
      .ok true ∧
    (getMatcher (createMatcher.hasOwn (.str "x") none)).test (.obj [] [("x", .num 1)]) =
      .ok false ∧
    (getMatcher (createMatcher.has (.str "x") none)).test (.obj [] [("x", .num 1)]) =
      .ok true := by
  refine ⟨?_, ?_, ?_⟩ <;>
    simp [getMatcher, createMatcher.has, createMatcher.hasOwn, createPropertyMatcher,
      buildMatcher, hasPropertyTest, hasOwnPropertyTest, jsTypeofOp, jsHasIn, lookupField]

/-- C9: every matcher produced through the engine's construction paths (the
factory dispatch, the or/and combinators, the namespace builders) is an
`Object.create(matcher)` object, hence recognized by `isMatcher`; an
externally authored value — including a plain object carrying `test` and
`message` properties — is never recognized, because recognition is the
prototype-membership check, not a duck-typed shape check. -/
theorem isMatcher_identity_marker :
    (∀ e msg, isMatcher (.matcherObj (buildMatcher e msg)) = true) ∧
    (∀ m1 m2, isMatcher (.matcherObj (orMatcher m1 m2)) = true) ∧
    (∀ m1 m2, isMatcher (.matcherObj (andMatcher m1 m2)) = true) ∧
    isMatcher (.matcherObj createMatcher.any) = true ∧
    (∀ e, isMatcher (.matcherObj (createMatcher.same e)) = true) ∧
    (∀ p v, isMatcher (.matcherObj (getMatcher (createMatcher.has p v))) = true) ∧
    (∀ e, isMatcher (.matcherObj (getMatcher (createMatcher.array.deepEquals e))) = true) ∧
    (∀ t fields proto,
      isMatcher (.foreign (.obj (("test", t) :: ("message", .str "match(x)") :: fields) proto)) =
        false) ∧
    (∀ v, isMatcher (.foreign v) = false) := by
  exact ⟨fun _ _ => rfl, fun _ _ => rfl, fun _ _ => rfl, rfl, fun _ => rfl,
    fun _ _ => rfl, fun _ => rfl, fun _ _ _ => rfl, fun _ => rfl⟩

/-- One step of the key conjunction: the native `every` inspects the head
key's outcome, propagating a thrown error and short-circuiting on false. -/
theorem matchFields_cons (actual : JSVal) (key : String) (exp : Exp)
    (rest : List (String × Exp)) :
    matchFields actual ((key, exp) :: rest) =
      match expFieldTest actual key exp with
      | .error e => .error e
      | .ok true => matchFields actual rest
      | .ok false => .ok false := by
  simp only [matchFields]
  cases h : expFieldTest actual key exp with
  | error e => rfl
  | ok b => cases b <;> rfl

/-- The key conjunction succeeds with true exactly when every key's test
succeeds with true. -/
theorem matchFields_ok_true_iff (actual : JSVal) (l : List (String × Exp)) :
    matchFields actual l = .ok true ↔
      ∀ kv ∈ l, expFieldTest actual kv.1 kv.2 = .ok true := by
  induction l with
  | nil => simp [matchFields]
  | cons head tail ih =>
    obtain ⟨key, exp⟩ := head
    rw [matchFields_cons]
    cases h : expFieldTest actual key exp with
    | error e => simp [h]
    | ok b => cases b <;> simp [h, ih]

/-- A single key's outcome is `ok true` exactly when the spec's per-key
condition holds. -/
theorem expFieldTest_ok_true_iff (actual : JSVal) (key : String) (exp : Exp) :
    expFieldTest actual key exp = .ok true ↔ specFieldMatches actual key exp := by
  cases exp with
  | matcherE m => simp [expFieldTest, specFieldMatches]
  | obj fields => simp [expFieldTest, specFieldMatches]
  | func f name => simp [expFieldTest, specFieldMatches, pure, Except.pure]
  | rx pat s => simp [expFieldTest, specFieldMatches, pure, Except.pure]
  | val v => cases v <;> simp [expFieldTest, specFieldMatches, pure, Except.pure]

/-- C3: for a plain-object expectation, `matchObject(actual, expectation)`
returns false when actual is null or undefined, and otherwise returns true
iff for every own key of the expectation the per-key condition holds: a
Matcher field passes its test, a plain-object field recursively matches,
any other field is deepEqual — extra keys of the actual are ignored (the
quantifier ranges over the expectation's keys only; subset match). -/
theorem matchObject_spec (actual : JSVal) (expectation : List (String × Exp)) :
    matchObject .null expectation = .ok false ∧
    matchObject .undefined expectation = .ok false ∧
    (matchObject actual expectation = .ok true ↔
      actual ≠ .null ∧ actual ≠ .undefined ∧
        ∀ kv ∈ expectation, specFieldMatches actual kv.1 kv.2) := by
  refine ⟨by simp [matchObject], by simp [matchObject], ?_⟩
  cases actual <;>
    simp [matchObject, matchFields_ok_true_iff, expFieldTest_ok_true_iff]

/-- C1 counterexample: the claim fails in both directions —
`createMatcher.any.test(null)` returns true (not false), and
`createMatcher.array.deepEquals([]).test(null)` throws a TypeError (reads
`null.length` before the array type guard) instead of returning false. -/
theorem test_null_counterexample :
    createMatcher.any.test .null = .ok true ∧
    (getMatcher (createMatcher.array.deepEquals (.arr []))).test .null = .error () := by
  exact ⟨rfl, by simp [getMatcher, createMatcher.array.deepEquals, buildMatcher,
    arrayDeepEqualsTest]⟩

/-- C1 amended: matchers that expect a property or shape (object-pattern,
string, regexp, number, property/path matchers, quantifiers, `array`
startsWith/contains, map/set contains) return `false` on a null or
undefined actual without raising; value-comparison matchers (`in`,
`typeOf`, `same`) return their comparison's result there; matchers whose
predicate semantics accept null (`any`, `falsy`) return true; and the four
matchers that read `actual.length`/`actual.size` before their type guard —
array.deepEquals, array.endsWith, map.deepEquals, set.deepEquals — throw a
TypeError on null/undefined actual.  The value-comparison and fallback
equations are stated at both null and undefined, so a null/undefined-valued
expectation (e.g. `createMatcher(null)`) does match the corresponding
actual. -/
theorem test_null_undefined_behavior :
    (∀ fields, matchObject .null fields = .ok false ∧
      matchObject .undefined fields = .ok false) ∧
    (∀ s, (buildMatcher (.val (.str s)) none).test .null = .ok false ∧
      (buildMatcher (.val (.str s)) none).test .undefined = .ok false) ∧
    (∀ pat src, (buildMatcher (.rx pat src) none).test .null = .ok false ∧
      (buildMatcher (.rx pat src) none).test .undefined = .ok false) ∧
    (∀ n, (buildMatcher (.val (.num n)) none).test .null = .ok false ∧
      (buildMatcher (.val (.num n)) none).test .undefined = .ok false) ∧
    (∀ p v, (getMatcher (createMatcher.has (.str p) v)).test .null = .ok false ∧
      (getMatcher (createMatcher.has (.str p) v)).test .undefined = .ok false) ∧
    (∀ p v, (getMatcher (createMatcher.hasOwn (.str p) v)).test .null = .ok false ∧
      (getMatcher (createMatcher.hasOwn (.str p) v)).test .undefined = .ok false) ∧
    (∀ p v, (getMatcher (createMatcher.hasNested (.str p) v)).test .null = .ok false ∧
      (getMatcher (createMatcher.hasNested (.str p) v)).test .undefined = .ok false) ∧
    (∀ m, (getMatcher (createMatcher.every (.matcherE m))).test .null = .ok false ∧
      (getMatcher (createMatcher.every (.matcherE m))).test .undefined = .ok false) ∧
    (∀ m, (getMatcher (createMatcher.some (.matcherE m))).test .null = .ok false ∧
      (getMatcher (createMatcher.some (.matcherE m))).test .undefined = .ok false) ∧
    (∀ e, (getMatcher (createMatcher.array.startsWith e)).test .null = .ok false ∧
      (getMatcher (createMatcher.array.startsWith e)).test .undefined = .ok false) ∧
    (∀ e, (getMatcher (createMatcher.array.contains e)).test .null = .ok false ∧
      (getMatcher (createMatcher.array.contains e)).test .undefined = .ok false) ∧
    (∀ e, (getMatcher (createMatcher.map.contains e)).test .null = .ok false ∧
      (getMatcher (createMatcher.map.contains e)).test .undefined = .ok false) ∧
    (∀ e, (getMatcher (createMatcher.set.contains e)).test .null = .ok false ∧
      (getMatcher (createMatcher.set.contains e)).test .undefined = .ok false) ∧
    (∀ xs, (getMatcher (inMatcher (.arr xs))).test .null =
      .ok (xs.any (fun e => jsStrictEq e .null))) ∧
    (∀ t, (getMatcher (createMatcher.typeOf (.str t))).test .null =
      .ok (decide ("null" = t))) ∧
    (∀ e, (createMatcher.same e).test .null = .ok (jsStrictEq e .null)) ∧
    (∀ xs, (getMatcher (inMatcher (.arr xs))).test .undefined =
      .ok (xs.any (fun e => jsStrictEq e .undefined))) ∧
    (∀ t, (getMatcher (createMatcher.typeOf (.str t))).test .undefined =
      .ok (decide ("undefined" = t))) ∧
    (∀ e, (createMatcher.same e).test .undefined = .ok (jsStrictEq e .undefined)) ∧
    (∀ b, (buildMatcher (.val (.bool b)) none).test .null =
        .ok (deepEqualV .null (.bool b)) ∧
      (buildMatcher (.val (.bool b)) none).test .undefined =
        .ok (deepEqualV .undefined (.bool b))) ∧
    (∀ xs, (buildMatcher (.val (.arr xs)) none).test .null =
        .ok (deepEqualV .null (.arr xs)) ∧
      (buildMatcher (.val (.arr xs)) none).test .undefined =
        .ok (deepEqualV .undefined (.arr xs))) ∧
    (∀ es, (buildMatcher (.val (.map es)) none).test .null =
        .ok (deepEqualV .null (.map es)) ∧
      (buildMatcher (.val (.map es)) none).test .undefined =
        .ok (deepEqualV .undefined (.map es))) ∧
    (∀ ys, (buildMatcher (.val (.set ys)) none).test .null =
        .ok (deepEqualV .null (.set ys)) ∧
      (buildMatcher (.val (.set ys)) none).test .undefined =
        .ok (deepEqualV .undefined (.set ys))) ∧
    ((buildMatcher (.val .null) none).test .null = .ok true ∧
      (buildMatcher (.val .null) none).test .undefined = .ok false) ∧
    ((buildMatcher (.val .undefined) none).test .undefined = .ok true ∧
      (buildMatcher (.val .undefined) none).test .null = .ok false) ∧
    createMatcher.any.test .null = .ok true ∧
    createMatcher.any.test .undefined = .ok true ∧
    createMatcher.falsy.test .null = .ok true ∧
    createMatcher.falsy.test .undefined = .ok true ∧
    createMatcher.truthy.test .null = .ok false ∧
    createMatcher.defined.test .null = .ok false ∧
    (∀ e, (getMatcher (createMatcher.array.deepEquals e)).test .null = .error () ∧
      (getMatcher (createMatcher.array.deepEquals e)).test .undefined = .error ()) ∧
    (∀ e, (getMatcher (createMatcher.array.endsWith e)).test .null = .error () ∧
      (getMatcher (createMatcher.array.endsWith e)).test .undefined = .error ()) ∧
    (∀ e, (getMatcher (createMatcher.map.deepEquals e)).test .null = .error () ∧
      (getMatcher (createMatcher.map.deepEquals e)).test .undefined = .error ()) ∧
    (∀ e, (getMatcher (createMatcher.set.deepEquals e)).test .null = .error () ∧
      (getMatcher (createMatcher.set.deepEquals e)).test .undefined = .error ()) := by
  refine ⟨fun fields => ⟨by simp [matchObject], by simp [matchObject]⟩,
    fun s => ⟨rfl, rfl⟩, fun pat src => ⟨rfl, rfl⟩, fun n => ⟨rfl, rfl⟩,
    fun p v => ⟨rfl, rfl⟩, fun p v => ⟨rfl, rfl⟩, fun p v => ⟨rfl, rfl⟩,
    fun m => ⟨rfl, rfl⟩, fun m => ⟨rfl, rfl⟩,
    fun e => ⟨rfl, rfl⟩, fun e => ⟨rfl, rfl⟩, fun e => ⟨rfl, rfl⟩, fun e => ⟨rfl, rfl⟩,
    fun xs => rfl, fun t => rfl, fun e => rfl,
    fun xs => rfl, fun t => rfl, fun e => rfl,
    fun b => ⟨rfl, rfl⟩, fun xs => ⟨rfl, rfl⟩, fun es => ⟨rfl, rfl⟩, fun ys => ⟨rfl, rfl⟩,
    ⟨by simp [buildMatcher, deepEqualV, jsEq], by simp [buildMatcher, deepEqualV, jsEq]⟩,
    ⟨by simp [buildMatcher, deepEqualV, jsEq], by simp [buildMatcher, deepEqualV, jsEq]⟩,
    rfl, rfl, rfl, rfl, rfl, rfl,
    fun e => ⟨by simp [getMatcher, createMatcher.array.deepEquals, buildMatcher,
      arrayDeepEqualsTest],
      by simp [getMatcher, createMatcher.array.deepEquals, buildMatcher,
        arrayDeepEqualsTest]⟩,
    fun e => ⟨rfl, rfl⟩, fun e => ⟨rfl, rfl⟩, fun e => ⟨rfl, rfl⟩⟩

/-- C5 counterexample: a non-array argument to an array-family builder does
NOT raise — `createMatcher.array.deepEquals(5)` constructs a matcher
without any argument validation, contradicting the claimed trigger list. -/
theorem array_family_no_validation_counterexample :
    exceptOk (createMatcher.array.deepEquals (.num 5)) = true := rfl

/-- C5 amended: argument errors are raised synchronously and only at
matcher-construction or combinator-invocation time, never from test,
exactly on these triggers: more than two factory arguments; a supplied
non-string (and non-undefined) message; zero-argument or/and; a non-array
argument to `in`; a non-string property/path/type-tag; a non-Matcher
argument to every/some; a non-callable argument to instanceOf.  The
array/map/set family builders perform no argument validation and always
construct. -/
theorem argument_error_triggers :
    (∀ e msg extra, exceptOk (createMatcher e msg extra) =
      (msgArgOk msg && decide (extra = 0))) ∧
    (∀ m arg, exceptOk (Matcher.or m arg) = arg.isSome) ∧
    (∀ m arg, exceptOk (Matcher.and m arg) = arg.isSome) ∧
    (∀ v, exceptOk (inMatcher v) = decide (jsTypeOf v = "array")) ∧
    (∀ v, exceptOk (createMatcher.typeOf v) = decide (jsTypeOf v = "string")) ∧
    (∀ t, exceptOk (createMatcher.instanceOf t) = isCallableArg t) ∧
    (∀ p, exceptOk (createMatcher.every p) = isMatcherExp p) ∧
    (∀ p, exceptOk (createMatcher.some p) = isMatcherExp p) ∧
    (∀ v w, exceptOk (createMatcher.has v w) = decide (jsTypeOf v = "string")) ∧
    (∀ v w, exceptOk (createMatcher.hasOwn v w) = decide (jsTypeOf v = "string")) ∧
    (∀ v w, exceptOk (createMatcher.hasNested v w) = decide (jsTypeOf v = "string")) ∧
    (∀ v, exceptOk (createMatcher.array.deepEquals v) = true) ∧
    (∀ v, exceptOk (createMatcher.array.startsWith v) = true) ∧
    (∀ v, exceptOk (createMatcher.array.endsWith v) = true) ∧
    (∀ v, exceptOk (createMatcher.array.contains v) = true) ∧
    (∀ v, exceptOk (createMatcher.map.deepEquals v) = true) ∧
    (∀ v, exceptOk (createMatcher.map.contains v) = true) ∧
    (∀ v, exceptOk (createMatcher.set.deepEquals v) = true) ∧
    (∀ v, exceptOk (createMatcher.set.contains v) = true) := by
  refine ⟨?_, ?_, ?_, ?_, ?_, ?_, ?_, ?_, ?_, ?_, ?_,
    fun v => rfl, fun v => rfl, fun v => rfl, fun v => rfl,
    fun v => rfl, fun v => rfl, fun v => rfl, fun v => rfl⟩
  · intro e msg extra
    cases msg with
    | none =>
      cases extra <;> simp [createMatcher, msgArgOk, exceptOk]
    | some v =>
      cases v <;> cases extra <;> simp [createMatcher, msgArgOk, exceptOk]
  · intro m arg; cases arg <;> rfl
  · intro m arg; cases arg <;> rfl
  · intro v; cases v <;> rfl
  · intro v; cases v <;> rfl
  · intro t; cases t <;> rfl
  · intro p; cases p <;> rfl
  · intro p; cases p <;> rfl
  · intro v w; cases v <;> rfl
  · intro v w; cases v <;> rfl
  · intro v w; cases v <;> rfl

/-- Strict equality against undefined holds only for undefined. -/
theorem jsEq_undefined_iff (v : JSVal) : jsEq .undefined v = true ↔ v = .undefined := by
  cases v <;> simp [jsEq]

/-- C7 counterexample: `array.endsWith([undefined]).test([])` returns true
even though `[]` is strictly shorter than the suffix — the out-of-range
read `[][-1]` yields undefined, which strictly equals the undefined suffix
element, so the claimed "shorter actual fails naturally" is violated. -/
theorem endsWith_shorter_match_counterexample :
    ([] : List JSVal).length < [JSVal.undefined].length ∧
    (getMatcher (createMatcher.array.endsWith (.arr [.undefined]))).test (.arr []) =
      .ok true := by
  constructor
  · decide
  · simp [getMatcher, createMatcher.array.endsWith, buildMatcher, endsWithTest,
      jsIndexInt, jsStrictEq, jsEq]

/-- C7 amended: `array.endsWith(suffix).test(actual)` holds iff actual is
an array and for every index i of suffix, the strict comparison
`actual[actual.length - suffix.length + i] === suffix[i]` succeeds; there
is no explicit length guard, and an actual strictly shorter than the suffix
fails naturally via the offset arithmetic PROVIDED no suffix element is
undefined (an out-of-range read yields undefined, which strictly equals an
undefined suffix element). -/
theorem endsWith_spec :
    (∀ suffix actual,
      (getMatcher (createMatcher.array.endsWith (.arr suffix))).test actual = .ok true ↔
        ∃ xs, actual = .arr xs ∧
          ∀ p ∈ suffix.enum,
            jsStrictEq
              (jsIndexInt xs ((xs.length : Int) - (suffix.length : Int) + (p.1 : Int)))
              p.2 = true) ∧
    (∀ suffix xs, xs.length < suffix.length →
      (∀ e ∈ suffix, e ≠ JSVal.undefined) →
      (getMatcher (createMatcher.array.endsWith (.arr suffix))).test (.arr xs) =
        .ok false) := by
  constructor
  · intro suffix actual
    cases actual <;>
      simp [getMatcher, createMatcher.array.endsWith, buildMatcher, endsWithTest,
        List.all_eq_true]
  · intro suffix xs hlen hundef
    cases suffix with
    | nil => simp at hlen
    | cons s0 rest =>
      show endsWithTest (.arr (s0 :: rest)) (.arr xs) = .ok false
      simp only [endsWithTest]
      congr 1
      rw [Bool.eq_false_iff]
      intro hall
      rw [List.all_eq_true] at hall
      have hmem : ((0 : Nat), s0) ∈ (s0 :: rest).enum := by
        rw [List.mk_mem_enum_iff_getElem?]
        simp
      have h0 := hall _ hmem
      simp only at h0
      have hoff : ((xs.length : Int) - ((s0 :: rest).length : Int) + ((0 : Nat) : Int)) < 0 := by
        simp only [List.length_cons] at hlen ⊢
        omega
      have hidx : jsIndexInt xs ((xs.length : Int) - ((s0 :: rest).length : Int) + ((0 : Nat) : Int)) =
          .undefined := by
        unfold jsIndexInt
        exact if_pos hoff
      rw [hidx, jsStrictEq, jsEq_undefined_iff] at h0
      exact hundef s0 (List.mem_cons_self s0 rest) h0

/-- Witness for the hypothesis-bearing part of the endsWith theorem: the
concrete suffix [1] and the strictly shorter actual [] with no undefined
suffix element indeed fail to match. -/
theorem endsWith_spec_witness :
    ([] : List JSVal).length < [JSVal.num 1].length ∧
    (getMatcher (createMatcher.array.endsWith (.arr [.num 1]))).test (.arr []) =
      .ok false :=
  ⟨by decide,
   endsWith_spec.2 [JSVal.num 1] [] (by decide)
     (by intro e he; simp at he; subst he; intro h; cases h)⟩

/-- A list fold of ok-true checks agrees with the decided bounded universal
quantifier. -/
theorem all_matchOk_eq_decide {α : Type} (g : α → Except Unit Bool) (l : List α) :
    (l.all fun x =>
      match g x with
      | .ok true => true
      | _ => false) =
      decide (∀ x ∈ l, g x = .ok true) := by
  rw [Bool.eq_iff_iff]
  simp [List.all_eq_true, matchOkTrue_eq_decide]

/-- C6: for `every(p)`/`some(p)` with `p` a Matcher: over a plain object,
`every` is the universal and `some` the existential quantifier over the
values at the own keys; otherwise an actual without a forEach capability
makes both return false, and over an iterable `every`/`some` are the
universal/existential quantifiers over elements (vacuously true/false on
empty collections); `some` is literally the negation of "every element
fails", and — for predicates whose test never throws — behaviorally
equivalent to the existential scan. -/
theorem every_some_spec (p : Matcher) (actual : JSVal) :
    ((getMatcher (createMatcher.every (.matcherE p))).test actual =
      .ok (if jsTypeOf actual = "object" then
             decide (∀ k ∈ jsOwnKeys actual, p.test (jsGet actual k) = .ok true)
           else
             isIterable actual &&
               decide (∀ pr ∈ (forEachPairs actual).getD [], p.test pr.1 = .ok true))) ∧
    ((getMatcher (createMatcher.some (.matcherE p))).test actual =
      .ok (if jsTypeOf actual = "object" then
             decide (¬ ∀ k ∈ jsOwnKeys actual,
               (p.test (jsGet actual k)).map (fun b => !b) = .ok true)
           else
             isIterable actual &&
               decide (¬ ∀ pr ∈ (forEachPairs actual).getD [],
                 (p.test pr.1).map (fun b => !b) = .ok true))) ∧
    ((∀ v, exceptOk (p.test v) = true) →
      (getMatcher (createMatcher.some (.matcherE p))).test actual =
        .ok (if jsTypeOf actual = "object" then
               decide (∃ k ∈ jsOwnKeys actual, p.test (jsGet actual k) = .ok true)
             else
               isIterable actual &&
                 decide (∃ pr ∈ (forEachPairs actual).getD [], p.test pr.1 = .ok true))) ∧
    (getMatcher (createMatcher.every (.matcherE p))).test (.arr []) = .ok true ∧
    (getMatcher (createMatcher.some (.matcherE p))).test (.arr []) = .ok false := by
  have hevery : (getMatcher (createMatcher.every (.matcherE p))).test actual =
      Except.ok (everyTestFun p actual) := rfl
  have hsome : (getMatcher (createMatcher.some (.matcherE p))).test actual =
      Except.ok (someTestFun p actual) := rfl
  refine ⟨?_, ?_, ?_, rfl, rfl⟩
  · rw [hevery]
    congr 1
    unfold everyTestFun
    by_cases hobj : jsTypeOf actual = "object"
    · rw [if_pos hobj, if_pos hobj]
      exact all_matchOk_eq_decide (fun key => p.test (jsGet actual key)) (jsOwnKeys actual)
    · rw [if_neg hobj, if_neg hobj]
      unfold isIterable commonsEveryE
      cases hfe : forEachPairs actual with
      | none => rfl
      | some ps =>
        simp only [Option.isSome_some, Option.getD_some, Bool.true_and]
        exact all_matchOk_eq_decide (fun pr => p.test pr.1) ps
  · rw [hsome]
    congr 1
    unfold someTestFun
    by_cases hobj : jsTypeOf actual = "object"
    · rw [if_pos hobj, if_pos hobj,
        all_matchOk_eq_decide (fun key => (p.test (jsGet actual key)).map (fun b => !b))
          (jsOwnKeys actual),
        decide_not]
    · rw [if_neg hobj, if_neg hobj]
      unfold isIterable commonsEveryE
      cases hfe : forEachPairs actual with
      | none => rfl
      | some ps =>
        simp only [Option.isSome_some, Option.getD_some, Bool.true_and]
        rw [all_matchOk_eq_decide (fun pr => (p.test pr.1).map (fun b => !b)) ps,
          decide_not]
  · intro h
    have hnotiff : ∀ v, ((p.test v).map (fun b => !b) = .ok true) ↔ ¬(p.test v = .ok true) := by
      intro v
      rw [mapNot_ok_true]
      have hv2 := h v
      cases hv : p.test v with
      | error e => rw [hv] at hv2; simp [exceptOk] at hv2
      | ok b => cases b <;> simp
    rw [hsome]
    congr 1
    unfold someTestFun
    by_cases hobj : jsTypeOf actual = "object"
    · rw [if_pos hobj, if_pos hobj,
        all_matchOk_eq_decide (fun key => (p.test (jsGet actual key)).map (fun b => !b))
          (jsOwnKeys actual)]
      rw [Bool.eq_iff_iff]
      simp [hnotiff, not_forall, Classical.not_imp]
    · rw [if_neg hobj, if_neg hobj]
      unfold isIterable commonsEveryE
      cases hfe : forEachPairs actual with
      | none => rfl
      | some ps =>
        simp only [Option.isSome_some, Option.getD_some, Bool.true_and]
        rw [all_matchOk_eq_decide (fun pr => (p.test pr.1).map (fun b => !b)) ps]
        rw [Bool.eq_iff_iff]
        simp [hnotiff, not_forall, Classical.not_imp]

/-- Witness for the totality-hypothesis part of the every/some theorem:
`truthy` never throws, and `some(truthy)` over `[0, 2]` equals the
existential scan's outcome there. -/
theorem every_some_spec_witness :
    (getMatcher (createMatcher.some (.matcherE createMatcher.truthy))).test
        (.arr [.num 0, .num 2]) =
      .ok (if jsTypeOf (.arr [.num 0, .num 2]) = "object" then
             decide (∃ k ∈ jsOwnKeys (.arr [.num 0, .num 2]),
               createMatcher.truthy.test (jsGet (.arr [.num 0, .num 2]) k) = .ok true)
           else
             isIterable (.arr [.num 0, .num 2]) &&
               decide (∃ pr ∈ (forEachPairs (.arr [.num 0, .num 2])).getD [],
                 createMatcher.truthy.test pr.1 = .ok true)) :=
  (every_some_spec createMatcher.truthy (.arr [.num 0, .num 2])).2.2.1 (fun v => rfl)
